import Mathlib

/-!
# Verification of the resource-monitor sampler
  (instrument/resource_monitor/resource_monitor.py)

Two layers, matching the source:

* Pure snapshot-builder layer: `extract_cpu_info`, `extract_mem_info`,
  `extract_disk_info` and the assembly in `sample_utilization` decode a raw
  provider sample (a dict produced by `psutil.Process.as_dict(key_set)`).
  `as_dict` replaces a field whose read raised `AccessDenied`/`ZombieProcess`
  with `None`; every raw field is therefore an `Option`.  Subscripting a
  `None` field (`raw_sample['cpu_times'][0]`) raises `TypeError`, an index
  beyond the tuple raises `IndexError`, and iterating over a `None` field
  raises `TypeError`; all three are modelled as `Except.error`.  Scalar
  values (floats and ints in Python) are modelled as `Int`; the claims settled
  here are structural and do not depend on float arithmetic.

* Dynamic layer: the `ResourceMonitorThread` object plus the interleaving of
  the foreground caller (record_* methods, `signal_terminate`, `join`) and the
  background loop (`run`).  The loop body is split at its observable
  interleaving points into micro-steps (`loop_check_running` = the `while
  self._running` test, `loop_sample` = the `if elapsed >= sample_interval`
  body, `loop_sleep` = `time.sleep` plus the `elapsed` increment).  A run is
  a list of timed actions; each action carries the wall-clock reading
  (`time.time()`) at which it executes.  The provider payload of a snapshot
  is abstracted by its capture time `takenAt` in this layer; the fields the
  dynamic claims need (manually-reported counters and `elapsed_time`) are
  carried explicitly, exactly as `sample_utilization` computes them.
-/

namespace ResourceMonitor

/-- One entry of `raw_sample['connections']`: the code only reads `.status`. -/
structure ConnInfo where
  status : String
deriving Repr, DecidableEq

/-- The raw provider sample: `psutil.Process.as_dict(key_set)` for
`key_set = cpu_keys + memory_keys + disk_keys + session_keys`.  Each field is
`none` when the provider could not read it (psutil's `ad_value=None`
substitution for `AccessDenied`/`ZombieProcess`). -/
structure RawSample where
  cpu_percent : Option Int
  cpu_times : Option (List Int)
  threads : Option (List (Int × Int × Int))
  num_threads : Option Int
  memory_percent : Option Int
  memory_full_info : Option (List Int)
  num_fds : Option Int
  io_counters : Option (List Int)
  connections : Option (List ConnInfo)
deriving Repr, DecidableEq

/-- Result of `to_thread_dict`: `{'id': x[0], 'user_time': x[1], 'system_time': x[2]}`. -/
structure ThreadDict where
  id : Int
  user_time : Int
  system_time : Int
deriving Repr, DecidableEq

/-- `to_thread_dict = lambda x: {'id': x[0], 'user_time': x[1], 'system_time': x[2]}`. -/
def to_thread_dict (x : Int × Int × Int) : ThreadDict :=
  { id := x.1, user_time := x.2.1, system_time := x.2.2 }

/-- The `cpu_times` dict built by `extract_cpu_info`. -/
structure CpuTimesDict where
  user : Int
  system : Int
  children_user : Int
  children_system : Int
  iowait : Int
deriving Repr, DecidableEq

/-- The `cpu` sub-dict of a sample. -/
structure CpuInfo where
  cpu_percent : Option Int
  cpu_times : CpuTimesDict
  num_threads : Option Int
  threads : List ThreadDict
deriving Repr, DecidableEq

/-- The `memory` sub-dict of a sample (`extract_mem_info`). -/
structure MemInfo where
  memory_percent : Option Int
  rss : Int
  vms : Int
  shared : Int
  text : Int
  lib : Int
  data : Int
  dirty : Int
  uss : Int
  pss : Int
  swap : Int
deriving Repr, DecidableEq

/-- The `disk` sub-dict of a sample (`extract_disk_info`). -/
structure DiskInfo where
  num_fds : Option Int
  read_count : Int
  write_count : Int
  read_bytes : Int
  write_bytes : Int
  read_chars : Int
  write_chars : Int
deriving Repr, DecidableEq

/-- The `network` sub-dict of a sample. -/
structure NetworkInfo where
  session : List String
  download : Int
  upload : Int
deriving Repr, DecidableEq

/-- One full sample dict as assembled by `sample_utilization`. -/
structure Sample where
  cpu : CpuInfo
  memory : MemInfo
  disk : DiskInfo
  network : NetworkInfo
  cloud_service_trigger : Int
  elapsed_time : Int
deriving Repr, DecidableEq

/-- Indexing into a positional tuple of the raw sample: `xs[i]` raising
`IndexError` past the end. -/
def tuple_index (xs : List Int) (i : Nat) : Except String Int :=
  match xs, i with
  | [], _ => Except.error "IndexError: tuple index out of range"
  | x :: _, 0 => Except.ok x
  | _ :: rest, Nat.succ n => tuple_index rest n

/-- `raw_sample[key][i]` where the field may be `None` (then subscripting
raises `TypeError`). -/
def subscript (field : Option (List Int)) (i : Nat) : Except String Int :=
  match field with
  | none => Except.error "TypeError: NoneType object is not subscriptable"
  | some xs => tuple_index xs i

/-- `[to_thread_dict(t) for t in raw_sample['threads']]`: iterating over a
`None` field raises `TypeError`. -/
def iterate_threads (field : Option (List (Int × Int × Int))) :
    Except String (List ThreadDict) :=
  match field with
  | none => Except.error "TypeError: NoneType object is not iterable"
  | some ts => Except.ok (ts.map to_thread_dict)

/-- `list(map(lambda x: x.status, raw_sample['connections']))`: iterating
over a `None` field raises `TypeError`. -/
def iterate_statuses (field : Option (List ConnInfo)) :
    Except String (List String) :=
  match field with
  | none => Except.error "TypeError: NoneType object is not iterable"
  | some cs => Except.ok (cs.map fun x => x.status)

/-- `extract_cpu_info(raw_sample)`: positions 0..4 of `cpu_times` become
`user, system, children_user, children_system, iowait`; `threads` is mapped
through `to_thread_dict`; `cpu_percent` and `num_threads` are copied
verbatim. -/
def extract_cpu_info (raw_sample : RawSample) : Except String CpuInfo := do
  let user ← subscript raw_sample.cpu_times 0
  let system ← subscript raw_sample.cpu_times 1
  let children_user ← subscript raw_sample.cpu_times 2
  let children_system ← subscript raw_sample.cpu_times 3
  let iowait ← subscript raw_sample.cpu_times 4
  let threads ← iterate_threads raw_sample.threads
  Except.ok { cpu_percent := raw_sample.cpu_percent,
              cpu_times := { user := user, system := system,
                             children_user := children_user,
                             children_system := children_system,
                             iowait := iowait },
              num_threads := raw_sample.num_threads,
              threads := threads }

/-- `extract_mem_info(raw_sample)`: positions 0..9 of `memory_full_info`
become `rss, vms, shared, text, lib, data, dirty, uss, pss, swap`;
`memory_percent` is copied verbatim. -/
def extract_mem_info (raw_sample : RawSample) : Except String MemInfo := do
  let rss ← subscript raw_sample.memory_full_info 0
  let vms ← subscript raw_sample.memory_full_info 1
  let shared ← subscript raw_sample.memory_full_info 2
  let text ← subscript raw_sample.memory_full_info 3
  let lib ← subscript raw_sample.memory_full_info 4
  let data ← subscript raw_sample.memory_full_info 5
  let dirty ← subscript raw_sample.memory_full_info 6
  let uss ← subscript raw_sample.memory_full_info 7
  let pss ← subscript raw_sample.memory_full_info 8
  let swap ← subscript raw_sample.memory_full_info 9
  Except.ok { memory_percent := raw_sample.memory_percent,
              rss := rss, vms := vms, shared := shared, text := text,
              lib := lib, data := data, dirty := dirty, uss := uss,
              pss := pss, swap := swap }

/-- `extract_disk_info(raw_sample)`: positions 0..5 of `io_counters` become
`read_count, write_count, read_bytes, write_bytes, read_chars, write_chars`;
`num_fds` is copied verbatim. -/
def extract_disk_info (raw_sample : RawSample) : Except String DiskInfo := do
  let read_count ← subscript raw_sample.io_counters 0
  let write_count ← subscript raw_sample.io_counters 1
  let read_bytes ← subscript raw_sample.io_counters 2
  let write_bytes ← subscript raw_sample.io_counters 3
  let read_chars ← subscript raw_sample.io_counters 4
  let write_chars ← subscript raw_sample.io_counters 5
  Except.ok { num_fds := raw_sample.num_fds,
              read_count := read_count, write_count := write_count,
              read_bytes := read_bytes, write_bytes := write_bytes,
              read_chars := read_chars, write_chars := write_chars }

/-- `ResourceMonitorThread.sample_utilization`, with the state it reads passed
explicitly: the raw provider sample, the three manually-reported counters,
the current `time.time()` reading and the stored `create_time`.  The
`network.session` list maps each connection to its `.status` (iterating a
`None` field raises `TypeError`). -/
def sample_utilization (raw_sample : RawSample)
    (bytes_download bytes_upload cloud_service_invocation_count : Int)
    (now create_time : Int) : Except String Sample := do
  let cpu ← extract_cpu_info raw_sample
  let memory ← extract_mem_info raw_sample
  let disk ← extract_disk_info raw_sample
  let session ← iterate_statuses raw_sample.connections
  Except.ok { cpu := cpu, memory := memory, disk := disk,
              network := { session := session,
                           download := bytes_download,
                           upload := bytes_upload },
              cloud_service_trigger := cloud_service_invocation_count,
              elapsed_time := now - create_time }

/-! ## Dynamic layer: the monitor object and the interleaved run -/

/-- A snapshot as seen by the dynamic layer.  The provider payload (cpu,
memory, disk, session fields of `sample_utilization`) is abstracted by the
capture instant `takenAt` (the `time.time()` reading of the capturing call);
the fields the dynamic claims inspect are kept explicitly, computed exactly
as `sample_utilization` computes them from the monitor's state. -/
structure DynSnapshot where
  takenAt : Int
  download : Int
  upload : Int
  trigger : Int
  elapsedTime : Int
deriving Repr, DecidableEq

/-- Program counter of the background loop (`ResourceMonitorThread.run`):
`atWhile` = about to test `self._running`; `atCheck` = about to run the
`if elapsed >= self.sample_interval_second` body; `atSleep` = about to
`time.sleep(...)` and increment `elapsed`; `exited` = the loop returned. -/
inductive LoopPC
  | atWhile
  | atCheck
  | atSleep
  | exited
deriving Repr, DecidableEq

/-- State of one `ResourceMonitorThread` object plus its loop position.
`final_sample` and `records_at_freeze` model `self.summary`: once `join`
has executed `self.summary = dict(runtime_samples=self.records,
final_sample=self.sample_utilization())`, `final_sample` holds the snapshot
taken by that call and `records_at_freeze` holds the VALUE the `records`
list had at that moment (`runtime_samples` itself aliases the live list). -/
structure MonitorState where
  sample_interval_second : Int
  signal_interval_second : Int
  create_time : Int
  running : Bool
  started : Bool
  bytes_download : Int
  bytes_upload : Int
  cloud_service_invocation_count : Int
  elapsed : Int
  records : List DynSnapshot
  pc : LoopPC
  final_sample : Option DynSnapshot
  records_at_freeze : Option (List DynSnapshot)
deriving Repr, DecidableEq

/-- `ResourceMonitorThread.__init__`: `signal_interval_second` defaults to
`sample_interval_second` when `None`; counters start at 0, `records` empty,
`_running = True`; the thread is not yet started. -/
def mkMonitor (sample_interval_second : Int) (signal_interval_second : Option Int)
    (create_time : Int) : MonitorState :=
  { sample_interval_second := sample_interval_second,
    signal_interval_second := signal_interval_second.getD sample_interval_second,
    create_time := create_time,
    running := true, started := false,
    bytes_download := 0, bytes_upload := 0,
    cloud_service_invocation_count := 0,
    elapsed := 0, records := [], pc := LoopPC.atWhile,
    final_sample := none, records_at_freeze := none }

/-- The dynamic-layer view of `sample_utilization()` called at wall-clock
time `t`: it reads the three counters and computes
`elapsed_time = time.time() - self.create_time`. -/
def takeSnapshot (t : Int) (s : MonitorState) : DynSnapshot :=
  { takenAt := t,
    download := s.bytes_download,
    upload := s.bytes_upload,
    trigger := s.cloud_service_invocation_count,
    elapsedTime := t - s.create_time }

/-- Atomic actions of the two threads.  Foreground: `start`, the three
`record_*` reporters, `signal_terminate`, and the two phases of `join`
(`join_freeze` = building `self.summary` including the final
`sample_utilization()` call, which the code performs FIRST; `join_return` =
`super().join()` returning, which requires the loop to have exited).
Background: the three micro-steps of one loop iteration. -/
inductive Act
  | start
  | record_download (n : Int)
  | record_upload (n : Int)
  | record_service_invocation
  | signal_terminate
  | loop_check_running
  | loop_sample
  | loop_sleep
  | join_freeze
  | join_return
deriving Repr, DecidableEq

/-- One atomic step at wall-clock time `t`.  `none` means the action is not
enabled in this state (a thread cannot be at that point of its code). -/
def step (a : Act) (t : Int) (s : MonitorState) : Option MonitorState :=
  match a with
  | Act.start =>
      if s.started then none else some { s with started := true }
  | Act.record_download n =>
      some { s with bytes_download := s.bytes_download + n }
  | Act.record_upload n =>
      some { s with bytes_upload := s.bytes_upload + n }
  | Act.record_service_invocation =>
      some { s with cloud_service_invocation_count :=
                      s.cloud_service_invocation_count + 1 }
  | Act.signal_terminate =>
      some { s with running := false }
  | Act.loop_check_running =>
      if s.started ∧ s.pc = LoopPC.atWhile then
        some { s with pc := if s.running then LoopPC.atCheck else LoopPC.exited }
      else none
  | Act.loop_sample =>
      if s.pc = LoopPC.atCheck then
        if s.sample_interval_second ≤ s.elapsed then
          some { s with records := s.records ++ [takeSnapshot t s],
                        elapsed := 0, pc := LoopPC.atSleep }
        else some { s with pc := LoopPC.atSleep }
      else none
  | Act.loop_sleep =>
      if s.pc = LoopPC.atSleep then
        some { s with elapsed := s.elapsed + s.signal_interval_second,
                      pc := LoopPC.atWhile }
      else none
  | Act.join_freeze =>
      if s.final_sample = none then
        some { s with final_sample := some (takeSnapshot t s),
                      records_at_freeze := some s.records }
      else none
  | Act.join_return =>
      if s.started ∧ s.pc = LoopPC.exited ∧ s.final_sample ≠ none then some s
      else none

/-- Run a list of timed actions from a state; fails if some action is not
enabled where it occurs. -/
def run (s : MonitorState) : List (Act × Int) → Option MonitorState
  | [] => some s
  | (a, t) :: tr => (step a t s).bind (fun s1 => run s1 tr)

/-- `ResourceMonitorThread.join` as the sequential code executes it: FIRST
build `self.summary` (taking one more `sample_utilization()`), THEN call
`super().join()`, which raises `RuntimeError` when the thread was never
started.  `Except.ok` means the call proceeds to block on the thread's exit
(modelled by `join_return` in the trace semantics). -/
def join (t : Int) (s : MonitorState) : Except String MonitorState :=
  let s1 := { s with final_sample := some (takeSnapshot t s),
                     records_at_freeze := some s.records }
  if s1.started then Except.ok s1
  else Except.error "RuntimeError: cannot join thread before it is started"

/-- `elapsed < sample_interval_second` — the loop has not yet satisfied the
sampling condition. -/
def lowElapsed (s : MonitorState) : Bool :=
  decide (s.elapsed < s.sample_interval_second)

/-- Run a trace requiring a state predicate to hold at every state passed
through, the final one included. -/
def runWhen (P : MonitorState → Bool) (s : MonitorState) :
    List (Act × Int) → Option MonitorState
  | [] => if P s then some s else none
  | (a, t) :: tr =>
      if P s then (step a t s).bind (fun s1 => runWhen P s1 tr) else none

/-- The wall-clock readings of a trace are nondecreasing and start no earlier
than `t0`. -/
def timesMono (t0 : Int) : List (Act × Int) → Bool
  | [] => true
  | (_, t) :: tr => decide (t0 ≤ t) && timesMono t tr

/-- Claim-side description of one loop-body iteration, following the spec's
wording: "if `elapsed >= sample_interval`, take a snapshot, append it to
`records`, reset `elapsed` to 0.  Sleep for `signal_interval`.  Increment
`elapsed` by `signal_interval`."  Used only to compare with the micro-step
composition of `step`. -/
def loop_iter_spec (t : Int) (s : MonitorState) : MonitorState :=
  let s1 := if s.sample_interval_second ≤ s.elapsed then
      { s with records := s.records ++ [takeSnapshot t s], elapsed := 0 }
    else s
  { s1 with elapsed := s1.elapsed + s1.signal_interval_second }

/-- Is this action one of the three foreground counter reporters? -/
def isReport : Act → Bool
  | Act.record_download _ => true
  | Act.record_upload _ => true
  | Act.record_service_invocation => true
  | _ => false

/-- A trace made only of counter-reporting calls. -/
def onlyReports (tr : List (Act × Int)) : Bool :=
  tr.all fun p => isReport p.1

/-- Amount an action adds to `bytes_download`. -/
def downAmount : Act → Int
  | Act.record_download n => n
  | _ => 0

/-- Amount an action adds to `bytes_upload`. -/
def upAmount : Act → Int
  | Act.record_upload n => n
  | _ => 0

/-- Amount an action adds to `cloud_service_invocation_count`. -/
def invocAmount : Act → Int
  | Act.record_service_invocation => 1
  | _ => 0

/-- Total download bytes reported along a trace. -/
def downSum (tr : List (Act × Int)) : Int :=
  (tr.map fun p => downAmount p.1).sum

/-- Total upload bytes reported along a trace. -/
def upSum (tr : List (Act × Int)) : Int :=
  (tr.map fun p => upAmount p.1).sum

/-- Total service invocations reported along a trace. -/
def invocSum (tr : List (Act × Int)) : Int :=
  (tr.map fun p => invocAmount p.1).sum

/-! ### Concrete states and traces used as evaluation inputs -/

/-- A raw provider sample in which only `num_fds` was unreadable
(`AccessDenied`, hence `None` in the dict). -/
def rawFdsDenied : RawSample :=
  { cpu_percent := some 3, cpu_times := some [1, 2, 3, 4, 5],
    threads := some [(1, 2, 3)], num_threads := some 1,
    memory_percent := some 2,
    memory_full_info := some [10, 11, 12, 13, 14, 15, 16, 17, 18, 19],
    num_fds := none, io_counters := some [20, 21, 22, 23, 24, 25],
    connections := some [{ status := "ESTABLISHED" }] }

/-- A raw provider sample in which `cpu_times` was unreadable. -/
def rawCpuTimesDenied : RawSample :=
  { rawFdsDenied with cpu_times := none, num_fds := some 4 }

/-- Start, then terminate before any sampling tick. -/
def c1_tr1 : List (Act × Int) := [(Act.start, 0)]

/-- After the early termination: `join` freezes the summary, the loop notices
the cleared flag and exits, `super().join()` returns. -/
def c1_tr2 : List (Act × Int) :=
  [(Act.join_freeze, 1), (Act.loop_check_running, 1), (Act.join_return, 1)]

/-- The state after `c1_tr1` from `mkMonitor 10 none 0`. -/
def c1_s1 : MonitorState := { mkMonitor 10 none 0 with started := true }

/-- The state after the termination signal. -/
def c1_s2 : MonitorState := { c1_s1 with running := false }

/-- The state after `c1_tr2`. -/
def c1_s3 : MonitorState :=
  { c1_s2 with final_sample := some (takeSnapshot 1 c1_s2),
               records_at_freeze := some ([] : List DynSnapshot),
               pc := LoopPC.exited }

/-- An interleaving in which the loop has passed the `while self._running`
test (time 1) when the foreground signals termination and calls `join`;
`join` builds the summary (time 1), after which the still-running loop body
appends a snapshot (time 2) to the aliased `records` list and only then
exits. -/
def c2_trace : List (Act × Int) :=
  [(Act.start, 0), (Act.loop_check_running, 0), (Act.loop_sample, 0),
   (Act.loop_sleep, 0), (Act.loop_check_running, 1), (Act.signal_terminate, 1),
   (Act.join_freeze, 1), (Act.loop_sample, 2), (Act.loop_sleep, 2),
   (Act.loop_check_running, 2), (Act.join_return, 2)]

/-- A started monitor about to test its running flag. -/
def c3_state : MonitorState :=
  { mkMonitor 2 (some 1) 0 with started := true, elapsed := 2 }

/-- Three `record_download(100)` calls interleaved with an upload and an
invocation report. -/
def c4_trace : List (Act × Int) :=
  [(Act.record_download 100, 0), (Act.record_upload 7, 0),
   (Act.record_download 100, 1), (Act.record_service_invocation, 1),
   (Act.record_download 100, 2)]

/-- A run with two periodic snapshots (times 1 and 2) followed by
termination and `join` (time 3), with nondecreasing clock readings. -/
def c7_trace : List (Act × Int) :=
  [(Act.start, 0), (Act.loop_check_running, 0), (Act.loop_sample, 0),
   (Act.loop_sleep, 0), (Act.loop_check_running, 1), (Act.loop_sample, 1),
   (Act.loop_sleep, 1), (Act.loop_check_running, 2), (Act.loop_sample, 2),
   (Act.loop_sleep, 2), (Act.signal_terminate, 2), (Act.loop_check_running, 3),
   (Act.join_freeze, 3), (Act.join_return, 3)]

/-- The snapshot the `c7_trace` run captures at time `k`. -/
def c7_snap (k : Int) : DynSnapshot :=
  { takenAt := k, download := 0, upload := 0, trigger := 0, elapsedTime := k }

/-- Final state of the `c7_trace` run. -/
def c7_final : MonitorState :=
  { mkMonitor 1 (some 1) 0 with
      started := true, running := false, elapsed := 1,
      records := [c7_snap 1, c7_snap 2], pc := LoopPC.exited,
      final_sample := some (c7_snap 3),
      records_at_freeze := some [c7_snap 1, c7_snap 2] }

/-- A monitor whose `wait()` has completed: loop exited and summary frozen. -/
def c8_state : MonitorState :=
  { mkMonitor 1 none 0 with
      started := true, running := false, pc := LoopPC.exited,
      final_sample := some (takeSnapshot 3 (mkMonitor 1 none 0)),
      records_at_freeze := some ([] : List DynSnapshot) }

/-- A run in which `record_download(-5)` is reported between two periodic
snapshots: the second snapshot carries a smaller, negative download value. -/
def c10_trace : List (Act × Int) :=
  [(Act.start, 0), (Act.loop_check_running, 0), (Act.loop_sample, 0),
   (Act.loop_sleep, 0), (Act.loop_check_running, 1), (Act.loop_sample, 1),
   (Act.loop_sleep, 1), (Act.record_download (-5), 1),
   (Act.loop_check_running, 2), (Act.loop_sample, 2)]

/-! ## Helper lemmas -/

theorem bindOk {α β : Type} {x : Except String α} {f : α → Except String β} {b : β}
    (h : x >>= f = Except.ok b) : ∃ a, x = Except.ok a ∧ f a = Except.ok b := by
  cases x with
  | error e => simp [Bind.bind, Except.bind] at h
  | ok a => exact ⟨a, rfl, by simpa [Bind.bind, Except.bind] using h⟩

theorem subscript_ok {o : Option (List Int)} {i : Nat} {v : Int}
    (h : subscript o i = Except.ok v) : o.isSome = true := by
  cases o with
  | none => simp [subscript] at h
  | some xs => rfl

/-- Structural content of `extract_cpu_info` succeeding: both composite cpu
fields were actually provided, and the scalar fields are copied verbatim. -/
theorem extract_cpu_info_ok {raw : RawSample} {c : CpuInfo}
    (h : extract_cpu_info raw = Except.ok c) :
    raw.cpu_times.isSome = true ∧ raw.threads.isSome = true ∧
    c.cpu_percent = raw.cpu_percent ∧ c.num_threads = raw.num_threads := by
  unfold extract_cpu_info at h
  obtain ⟨u, hu, h⟩ := bindOk h
  obtain ⟨sy, _, h⟩ := bindOk h
  obtain ⟨cu, _, h⟩ := bindOk h
  obtain ⟨cs, _, h⟩ := bindOk h
  obtain ⟨iow, _, h⟩ := bindOk h
  obtain ⟨ts, hts, h⟩ := bindOk h
  refine ⟨subscript_ok hu, ?_, ?_, ?_⟩
  · cases hraw : raw.threads with
    | none => rw [hraw] at hts; simp [iterate_threads] at hts
    | some l => rfl
  · injection h with h2; rw [← h2]
  · injection h with h2; rw [← h2]

/-- Structural content of `extract_mem_info` succeeding. -/
theorem extract_mem_info_ok {raw : RawSample} {m : MemInfo}
    (h : extract_mem_info raw = Except.ok m) :
    raw.memory_full_info.isSome = true ∧ m.memory_percent = raw.memory_percent := by
  unfold extract_mem_info at h
  obtain ⟨v0, hv0, h⟩ := bindOk h
  obtain ⟨v1, _, h⟩ := bindOk h
  obtain ⟨v2, _, h⟩ := bindOk h
  obtain ⟨v3, _, h⟩ := bindOk h
  obtain ⟨v4, _, h⟩ := bindOk h
  obtain ⟨v5, _, h⟩ := bindOk h
  obtain ⟨v6, _, h⟩ := bindOk h
  obtain ⟨v7, _, h⟩ := bindOk h
  obtain ⟨v8, _, h⟩ := bindOk h
  obtain ⟨v9, _, h⟩ := bindOk h
  refine ⟨subscript_ok hv0, ?_⟩
  injection h with h2; rw [← h2]

/-- Structural content of `extract_disk_info` succeeding. -/
theorem extract_disk_info_ok {raw : RawSample} {d : DiskInfo}
    (h : extract_disk_info raw = Except.ok d) :
    raw.io_counters.isSome = true ∧ d.num_fds = raw.num_fds := by
  unfold extract_disk_info at h
  obtain ⟨v0, hv0, h⟩ := bindOk h
  obtain ⟨v1, _, h⟩ := bindOk h
  obtain ⟨v2, _, h⟩ := bindOk h
  obtain ⟨v3, _, h⟩ := bindOk h
  obtain ⟨v4, _, h⟩ := bindOk h
  obtain ⟨v5, _, h⟩ := bindOk h
  refine ⟨subscript_ok hv0, ?_⟩
  injection h with h2; rw [← h2]

/-- Structural content of `sample_utilization` succeeding: every composite
field was actually provided and the scalar fields of the snapshot are the
provider's values verbatim. -/
theorem sample_utilization_ok {raw : RawSample}
    {down up invoc now created : Int} {smp : Sample}
    (h : sample_utilization raw down up invoc now created = Except.ok smp) :
    raw.cpu_times.isSome = true ∧ raw.threads.isSome = true ∧
    raw.memory_full_info.isSome = true ∧ raw.io_counters.isSome = true ∧
    raw.connections.isSome = true ∧
    smp.cpu.cpu_percent = raw.cpu_percent ∧
    smp.cpu.num_threads = raw.num_threads ∧
    smp.memory.memory_percent = raw.memory_percent ∧
    smp.disk.num_fds = raw.num_fds := by
  unfold sample_utilization at h
  obtain ⟨c, hc, h⟩ := bindOk h
  obtain ⟨m, hm, h⟩ := bindOk h
  obtain ⟨d, hd, h⟩ := bindOk h
  obtain ⟨sess, hsess, h⟩ := bindOk h
  obtain ⟨hct, hth, hcp, hnt⟩ := extract_cpu_info_ok hc
  obtain ⟨hmf, hmp⟩ := extract_mem_info_ok hm
  obtain ⟨hio, hnf⟩ := extract_disk_info_ok hd
  have hconn : raw.connections.isSome = true := by
    cases hraw : raw.connections with
    | none => rw [hraw] at hsess; simp [iterate_statuses] at hsess
    | some l => rfl
  injection h with h2
  refine ⟨hct, hth, hmf, hio, hconn, ?_, ?_, ?_, ?_⟩ <;>
    rw [← h2] <;> simp [hcp, hnt, hmp, hnf]

/-- Every `Except` value is an error or a success. -/
theorem except_total {α : Type} (x : Except String α) :
    (∃ e, x = Except.error e) ∨ (∃ a, x = Except.ok a) := by
  cases x with
  | error e => exact Or.inl ⟨e, rfl⟩
  | ok a => exact Or.inr ⟨a, rfl⟩

/-! ## Claims -/

/-- C5.  Positional-tuple normalization: for every raw provider sample, the
snapshot builder re-exposes each positional tuple field by name in the
documented order — `cpu_times` positions 0..4 become `user, system,
children_user, children_system, iowait`; `io_counters` positions 0..5 become
`read_count, write_count, read_bytes, write_bytes, read_chars, write_chars`;
the detailed-memory tuple positions 0..9 become `rss, vms, shared, text,
lib, data, dirty, uss, pss, swap`; and each per-thread tuple
`(id, user_time, system_time)` is exposed by those names. -/
theorem positional_tuple_normalization
    (u sy cu cs iow : Int) (restC : List Int)
    (m0 m1 m2 m3 m4 m5 m6 m7 m8 m9 : Int) (restM : List Int)
    (i0 i1 i2 i3 i4 i5 : Int) (restI : List Int)
    (cp nt nf mp : Option Int) (ths : List (Int × Int × Int))
    (conns : List ConnInfo) (down up invoc now created : Int) :
    ∃ smp,
      sample_utilization
        { cpu_percent := cp,
          cpu_times := some ([u, sy, cu, cs, iow] ++ restC),
          threads := some ths, num_threads := nt, memory_percent := mp,
          memory_full_info :=
            some ([m0, m1, m2, m3, m4, m5, m6, m7, m8, m9] ++ restM),
          num_fds := nf,
          io_counters := some ([i0, i1, i2, i3, i4, i5] ++ restI),
          connections := some conns }
        down up invoc now created = Except.ok smp ∧
      smp.cpu.cpu_times = { user := u, system := sy, children_user := cu,
                            children_system := cs, iowait := iow } ∧
      smp.memory.rss = m0 ∧ smp.memory.vms = m1 ∧ smp.memory.shared = m2 ∧
      smp.memory.text = m3 ∧ smp.memory.lib = m4 ∧ smp.memory.data = m5 ∧
      smp.memory.dirty = m6 ∧ smp.memory.uss = m7 ∧ smp.memory.pss = m8 ∧
      smp.memory.swap = m9 ∧
      smp.disk.read_count = i0 ∧ smp.disk.write_count = i1 ∧
      smp.disk.read_bytes = i2 ∧ smp.disk.write_bytes = i3 ∧
      smp.disk.read_chars = i4 ∧ smp.disk.write_chars = i5 ∧
      smp.cpu.threads = ths.map to_thread_dict ∧
      ∀ x : Int × Int × Int,
        to_thread_dict x =
          { id := x.1, user_time := x.2.1, system_time := x.2.2 } :=
  ⟨_, rfl, rfl, rfl, rfl, rfl, rfl, rfl, rfl, rfl, rfl, rfl, rfl, rfl, rfl,
   rfl, rfl, rfl, rfl, rfl, fun _ => rfl⟩

/-- C6 counterexample.  A raw sample in which the provider failed to read a
required field (`num_fds`, unreadable and hence `None`) still yields a
successfully built snapshot — the error is not propagated; the snapshot
carries the null placeholder in that field. -/
theorem scalar_failure_not_propagated :
    ∃ smp, sample_utilization rawFdsDenied 0 0 0 7 2 = Except.ok smp ∧
      smp.disk.num_fds = none :=
  ⟨_, rfl, rfl⟩

/-- C6 amended.  Provider-failure propagation holds for the composite,
positionally-decoded fields: if any of `cpu_times`, `threads`,
`memory_full_info`, `io_counters`, `connections` is unavailable,
`sample_utilization` propagates an error and produces no snapshot.  The
scalar fields (`cpu_percent`, `num_threads`, `memory_percent`, `num_fds`)
are copied verbatim, so an unreadable scalar appears in the snapshot as the
provider's null placeholder rather than raising; in no case is a missing
field replaced by a fabricated zero — a returned snapshot's fields always
equal the provider's actually-returned values. -/
theorem provider_failure_propagation (raw : RawSample)
    (down up invoc now created : Int) :
    ((raw.cpu_times = none ∨ raw.threads = none ∨
      raw.memory_full_info = none ∨ raw.io_counters = none ∨
      raw.connections = none) →
      ∃ e, sample_utilization raw down up invoc now created =
        Except.error e) ∧
    (∀ smp, sample_utilization raw down up invoc now created =
        Except.ok smp →
      smp.cpu.cpu_percent = raw.cpu_percent ∧
      smp.cpu.num_threads = raw.num_threads ∧
      smp.memory.memory_percent = raw.memory_percent ∧
      smp.disk.num_fds = raw.num_fds ∧
      raw.cpu_times.isSome = true ∧ raw.threads.isSome = true ∧
      raw.memory_full_info.isSome = true ∧ raw.io_counters.isSome = true ∧
      raw.connections.isSome = true) := by
  constructor
  · intro hmiss
    rcases except_total (sample_utilization raw down up invoc now created)
      with ⟨e, he⟩ | ⟨smp, hs⟩
    · exact ⟨e, he⟩
    · exfalso
      obtain ⟨hct, hth, hmf, hio, hconn, _⟩ := sample_utilization_ok hs
      rcases hmiss with h | h | h | h | h <;> simp_all
  · intro smp hs
    obtain ⟨hct, hth, hmf, hio, hconn, hcp, hnt, hmp, hnf⟩ :=
      sample_utilization_ok hs
    exact ⟨hcp, hnt, hmp, hnf, hct, hth, hmf, hio, hconn⟩

/-- C6 amended, witness: with `cpu_times` unreadable the sampling call
propagates an error; with every field present it succeeds with the
provider's verbatim values. -/
theorem provider_failure_propagation_witness :
    (rawCpuTimesDenied.cpu_times = none ∨ rawCpuTimesDenied.threads = none ∨
      rawCpuTimesDenied.memory_full_info = none ∨
      rawCpuTimesDenied.io_counters = none ∨
      rawCpuTimesDenied.connections = none) ∧
    (∃ e, sample_utilization rawCpuTimesDenied 0 0 0 7 2 =
      Except.error e) :=
  ⟨Or.inl rfl,
   (provider_failure_propagation rawCpuTimesDenied 0 0 0 7 2).1 (Or.inl rfl)⟩

/-- C3.  Loop body algorithm: with the loop at the top of its `while` and the
running flag true, executing one iteration (running test, conditional
sample, sleep + increment) is exactly the spec's description: append one
snapshot and reset `elapsed` to 0 precisely when
`elapsed >= sample_interval`, then add `signal_interval` to `elapsed`; with
the flag false, the loop exits without touching `records` or `elapsed`; and
no snapshot is appended on an iteration where `elapsed < sample_interval`. -/
theorem loop_body_algorithm (s : MonitorState) (t : Int)
    (hstart : s.started = true) (hpc : s.pc = LoopPC.atWhile) :
    (s.running = true →
      ((step Act.loop_check_running t s).bind fun s1 =>
        (step Act.loop_sample t s1).bind fun s2 =>
          step Act.loop_sleep t s2) = some (loop_iter_spec t s)) ∧
    (s.running = false →
      step Act.loop_check_running t s = some { s with pc := LoopPC.exited }) ∧
    (s.elapsed < s.sample_interval_second →
      (loop_iter_spec t s).records = s.records ∧
      (loop_iter_spec t s).elapsed = s.elapsed + s.signal_interval_second) := by
  refine ⟨?_, ?_, ?_⟩
  · intro hrun
    rcases le_or_lt s.sample_interval_second s.elapsed with hle | hlt
    · simp [step, hstart, hpc, hrun, loop_iter_spec, takeSnapshot, hle]
    · simp [step, hstart, hpc, hrun, loop_iter_spec, takeSnapshot,
            not_le.mpr hlt]
  · intro hrun
    simp [step, hstart, hpc, hrun]
  · intro hlow
    have hnot : ¬ s.sample_interval_second ≤ s.elapsed := not_le.mpr hlow
    simp [loop_iter_spec, hnot]

/-- C3 witness: a started monitor with `elapsed = sample_interval = 2`. -/
theorem loop_body_algorithm_witness :
    c3_state.started = true ∧ c3_state.pc = LoopPC.atWhile ∧
    ((c3_state.running = true →
      ((step Act.loop_check_running 5 c3_state).bind fun s1 =>
        (step Act.loop_sample 5 s1).bind fun s2 =>
          step Act.loop_sleep 5 s2) = some (loop_iter_spec 5 c3_state)) ∧
    (c3_state.running = false →
      step Act.loop_check_running 5 c3_state =
        some { c3_state with pc := LoopPC.exited }) ∧
    (c3_state.elapsed < c3_state.sample_interval_second →
      (loop_iter_spec 5 c3_state).records = c3_state.records ∧
      (loop_iter_spec 5 c3_state).elapsed =
        c3_state.elapsed + c3_state.signal_interval_second)) :=
  ⟨rfl, rfl, loop_body_algorithm c3_state 5 rfl rfl⟩

/-- Counter reporters always succeed, are additive along any all-reports
trace, and touch neither `records` nor the frozen summary. -/
theorem run_reports (tr : List (Act × Int)) (s : MonitorState)
    (h : onlyReports tr = true) :
    ∃ s1, run s tr = some s1 ∧
      s1.bytes_download = s.bytes_download + downSum tr ∧
      s1.bytes_upload = s.bytes_upload + upSum tr ∧
      s1.cloud_service_invocation_count =
        s.cloud_service_invocation_count + invocSum tr ∧
      s1.records = s.records ∧ s1.final_sample = s.final_sample := by
  induction tr generalizing s with
  | nil =>
    exact ⟨s, rfl, by simp [downSum], by simp [upSum], by simp [invocSum],
           rfl, rfl⟩
  | cons p tr ih =>
    obtain ⟨a, t⟩ := p
    simp only [onlyReports, List.all_cons, Bool.and_eq_true] at h
    have htr : onlyReports tr = true := h.2
    have ha : isReport a = true := h.1
    cases a <;> simp [isReport] at ha
    case record_download n =>
      obtain ⟨s1, hrun, hd, hu, hi, hr, hf⟩ :=
        ih { s with bytes_download := s.bytes_download + n } htr
      refine ⟨s1, by simp [run, step, hrun], ?_, ?_, ?_,
              by simpa using hr, by simpa using hf⟩
      · simp only at hd; rw [hd]; simp [downSum, downAmount]; ring
      · simp only at hu; rw [hu]; simp [upSum, upAmount]
      · simp only at hi; rw [hi]; simp [invocSum, invocAmount]
    case record_upload n =>
      obtain ⟨s1, hrun, hd, hu, hi, hr, hf⟩ :=
        ih { s with bytes_upload := s.bytes_upload + n } htr
      refine ⟨s1, by simp [run, step, hrun], ?_, ?_, ?_,
              by simpa using hr, by simpa using hf⟩
      · simp only at hd; rw [hd]; simp [downSum, downAmount]
      · simp only at hu; rw [hu]; simp [upSum, upAmount]; ring
      · simp only at hi; rw [hi]; simp [invocSum, invocAmount]
    case record_service_invocation =>
      obtain ⟨s1, hrun, hd, hu, hi, hr, hf⟩ :=
        ih { s with cloud_service_invocation_count :=
                      s.cloud_service_invocation_count + 1 } htr
      refine ⟨s1, by simp [run, step, hrun], ?_, ?_, ?_,
              by simpa using hr, by simpa using hf⟩
      · simp only at hd; rw [hd]; simp [downSum, downAmount]
      · simp only at hu; rw [hu]; simp [upSum, upAmount]
      · simp only at hi; rw [hi]; simp [invocSum, invocAmount]; ring

/-- C4.  Counter accumulation is additive and commutative: any all-reports
trace between two snapshots succeeds, the next snapshot's download/upload/
trigger values are the previous state's counters plus the sums of the
reported amounts, and any permutation of the trace yields the same
counters. -/
theorem counter_accumulation (s : MonitorState) (tr : List (Act × Int))
    (t : Int) (h : onlyReports tr = true) :
    ∃ s1, run s tr = some s1 ∧
      (takeSnapshot t s1).download = s.bytes_download + downSum tr ∧
      (takeSnapshot t s1).upload = s.bytes_upload + upSum tr ∧
      (takeSnapshot t s1).trigger =
        s.cloud_service_invocation_count + invocSum tr ∧
      ∀ tr2, tr.Perm tr2 →
        ∃ s2, run s tr2 = some s2 ∧
          s2.bytes_download = s1.bytes_download ∧
          s2.bytes_upload = s1.bytes_upload ∧
          s2.cloud_service_invocation_count =
            s1.cloud_service_invocation_count := by
  obtain ⟨s1, hrun, hd, hu, hi, _, _⟩ := run_reports tr s h
  refine ⟨s1, hrun, hd, hu, hi, ?_⟩
  intro tr2 hperm
  have h2 : onlyReports tr2 = true := by
    simp only [onlyReports, List.all_eq_true] at h ⊢
    intro x hx
    exact h x (hperm.mem_iff.mpr hx)
  obtain ⟨s2, hrun2, hd2, hu2, hi2, _, _⟩ := run_reports tr2 s h2
  have hds : downSum tr2 = downSum tr := by
    unfold downSum
    exact (List.Perm.sum_eq (hperm.map fun p => downAmount p.1)).symm
  have hus : upSum tr2 = upSum tr := by
    unfold upSum
    exact (List.Perm.sum_eq (hperm.map fun p => upAmount p.1)).symm
  have his : invocSum tr2 = invocSum tr := by
    unfold invocSum
    exact (List.Perm.sum_eq (hperm.map fun p => invocAmount p.1)).symm
  exact ⟨s2, hrun2, by rw [hd2, hds, hd], by rw [hu2, hus, hu],
         by rw [hi2, his, hi]⟩

/-- C4 witness: three `record_download(100)` calls interleaved with an upload
and a service invocation add exactly 300 to the snapshot's download. -/
theorem counter_accumulation_witness :
    onlyReports c4_trace = true ∧
    ∃ s1, run (mkMonitor 5 none 0) c4_trace = some s1 ∧
      (takeSnapshot 3 s1).download = (mkMonitor 5 none 0).bytes_download + downSum c4_trace ∧
      (takeSnapshot 3 s1).upload = (mkMonitor 5 none 0).bytes_upload + upSum c4_trace ∧
      (takeSnapshot 3 s1).trigger =
        (mkMonitor 5 none 0).cloud_service_invocation_count + invocSum c4_trace ∧
      ∀ tr2, c4_trace.Perm tr2 →
        ∃ s2, run (mkMonitor 5 none 0) tr2 = some s2 ∧
          s2.bytes_download = s1.bytes_download ∧
          s2.bytes_upload = s1.bytes_upload ∧
          s2.cloud_service_invocation_count =
            s1.cloud_service_invocation_count :=
  ⟨by decide, counter_accumulation (mkMonitor 5 none 0) c4_trace 3 (by decide)⟩

/-- C2 code-bug exhibit.  In this interleaving the loop has passed its
`while self._running` test when the foreground signals termination and calls
`join`; `join` builds `self.summary` (final sample taken at time 1,
`runtime_samples` frozen as the then-empty list) BEFORE `super().join()`,
and the still-running loop body then appends a snapshot (time 2) to the
aliased `records` list before exiting.  So the summary is constructed before
the loop exits, and its aliased records sequence gains a snapshot after
construction. -/
theorem join_freezes_before_loop_exit :
    (run (mkMonitor 1 (some 1) 0) c2_trace).map (fun sF =>
      (sF.records_at_freeze, sF.records.map fun r => r.takenAt,
       sF.final_sample.map fun f => f.takenAt, sF.pc)) =
    some (some [], [2], some 1, LoopPC.exited) := by decide

/-- C8.  No mutation after freeze: once the summary exists, each counter
reporter still succeeds (no usage error) and leaves the frozen summary —
final sample, frozen records value, and the live records list — unchanged. -/
theorem no_mutation_after_freeze (s : MonitorState) (t n : Int)
    (h : s.final_sample.isSome = true) :
    ∃ s1 s2 s3,
      step (Act.record_download n) t s = some s1 ∧
      step (Act.record_upload n) t s1 = some s2 ∧
      step Act.record_service_invocation t s2 = some s3 ∧
      s3.final_sample = s.final_sample ∧
      s3.records_at_freeze = s.records_at_freeze ∧
      s3.records = s.records :=
  ⟨_, _, _, rfl, rfl, rfl, rfl, rfl, rfl⟩

/-- C8 witness: a monitor whose `wait()` has completed. -/
theorem no_mutation_after_freeze_witness :
    c8_state.final_sample.isSome = true ∧
    ∃ s1 s2 s3,
      step (Act.record_download 9) 4 c8_state = some s1 ∧
      step (Act.record_upload 9) 4 s1 = some s2 ∧
      step Act.record_service_invocation 4 s2 = some s3 ∧
      s3.final_sample = c8_state.final_sample ∧
      s3.records_at_freeze = c8_state.records_at_freeze ∧
      s3.records = c8_state.records :=
  ⟨rfl, no_mutation_after_freeze c8_state 4 9 rfl⟩

/-- C9.  Calling `wait()` on a never-started sampler fails with a usage
error (the `RuntimeError` that `super().join()` raises for an unstarted
thread) and returns no summary. -/
theorem wait_before_start_usage_error (s : MonitorState) (t : Int)
    (h : s.started = false) :
    join t s =
      Except.error "RuntimeError: cannot join thread before it is started" := by
  simp [join, h]

/-- C9 witness: a freshly constructed, never-started monitor. -/
theorem wait_before_start_usage_error_witness :
    (mkMonitor 1 none 0).started = false ∧
    join 0 (mkMonitor 1 none 0) =
      Except.error "RuntimeError: cannot join thread before it is started" :=
  ⟨rfl, wait_before_start_usage_error (mkMonitor 1 none 0) 0 rfl⟩

/-- C10.  Unvalidated counter arguments: `record_download(n)` and
`record_upload(n)` accept any integer, adding exactly `n` with no
validation; a negative report makes the cumulative download decrease
between consecutive snapshots and go negative. -/
theorem unvalidated_counter_arguments :
    (∀ (s : MonitorState) (n t : Int),
      step (Act.record_download n) t s =
        some { s with bytes_download := s.bytes_download + n } ∧
      step (Act.record_upload n) t s =
        some { s with bytes_upload := s.bytes_upload + n }) ∧
    ∃ sF, run (mkMonitor 1 (some 1) 0) c10_trace = some sF ∧
      sF.records.map (fun r => r.download) = [0, -5] := by
  refine ⟨fun s n t => ⟨rfl, rfl⟩, ?_⟩
  exact ⟨_, rfl, by decide⟩

/-- While `elapsed` has never reached `sample_interval`, no step can append a
record, and a freeze taken in that window freezes the empty list. -/
theorem step_keeps_empty (a : Act) (t : Int) (s s' : MonitorState)
    (hP : s.elapsed < s.sample_interval_second)
    (h1 : s.records = [])
    (h2 : s.final_sample.isSome = true → s.records_at_freeze = some [])
    (hstep : step a t s = some s') :
    s'.records = [] ∧
    (s'.final_sample.isSome = true → s'.records_at_freeze = some []) := by
  cases a <;> simp only [step] at hstep
  case start =>
    split at hstep
    · cases hstep
    · injection hstep with h; rw [← h]; exact ⟨h1, h2⟩
  case record_download n =>
    injection hstep with h; rw [← h]; exact ⟨h1, h2⟩
  case record_upload n =>
    injection hstep with h; rw [← h]; exact ⟨h1, h2⟩
  case record_service_invocation =>
    injection hstep with h; rw [← h]; exact ⟨h1, h2⟩
  case signal_terminate =>
    injection hstep with h; rw [← h]; exact ⟨h1, h2⟩
  case loop_check_running =>
    split at hstep
    · injection hstep with h; rw [← h]; exact ⟨h1, h2⟩
    · cases hstep
  case loop_sample =>
    split at hstep
    · split at hstep
      · next hc => exact absurd hc (not_le.mpr hP)
      · injection hstep with h; rw [← h]; exact ⟨h1, h2⟩
    · cases hstep
  case loop_sleep =>
    split at hstep
    · injection hstep with h; rw [← h]; exact ⟨h1, h2⟩
    · cases hstep
  case join_freeze =>
    split at hstep
    · injection hstep with h; rw [← h]
      exact ⟨h1, fun _ => congrArg some h1⟩
    · cases hstep
  case join_return =>
    split at hstep
    · injection hstep with h; rw [← h]; exact ⟨h1, h2⟩
    · cases hstep

/-- Along any run in which `elapsed < sample_interval` at every state, the
records list stays empty, any freeze froze the empty list, and the condition
still holds at the end. -/
theorem runWhen_low_keeps_empty (tr : List (Act × Int)) (s s' : MonitorState)
    (h1 : s.records = [])
    (h2 : s.final_sample.isSome = true → s.records_at_freeze = some [])
    (hrun : runWhen lowElapsed s tr = some s') :
    s'.records = [] ∧
    (s'.final_sample.isSome = true → s'.records_at_freeze = some []) ∧
    s'.elapsed < s'.sample_interval_second := by
  induction tr generalizing s with
  | nil =>
    simp only [runWhen] at hrun
    split at hrun
    · next hlow =>
      injection hrun with h; rw [← h]
      exact ⟨h1, h2, by simpa [lowElapsed] using hlow⟩
    · cases hrun
  | cons p tr ih =>
    obtain ⟨a, t⟩ := p
    simp only [runWhen] at hrun
    split at hrun
    · next hlow =>
      have hlow' : s.elapsed < s.sample_interval_second := by
        simpa [lowElapsed] using hlow
      cases hst : step a t s with
      | none => rw [hst] at hrun; cases hrun
      | some s1 =>
        rw [hst] at hrun
        obtain ⟨g1, g2⟩ := step_keeps_empty a t s s1 hlow' h1 h2 hst
        exact ih s1 g1 g2 hrun
    · cases hrun

/-- After the running flag is cleared in a state with empty records and
`elapsed` still below `sample_interval` whenever the loop is at its sampling
check, every further step keeps the records empty and any freeze frozen
the empty list. -/
theorem step_keeps_empty_terminated (a : Act) (t : Int) (s s' : MonitorState)
    (hrunning : s.running = false)
    (hpc : s.pc = LoopPC.atCheck → s.elapsed < s.sample_interval_second)
    (h1 : s.records = [])
    (h2 : s.final_sample.isSome = true → s.records_at_freeze = some [])
    (hstep : step a t s = some s') :
    s'.running = false ∧
    (s'.pc = LoopPC.atCheck → s'.elapsed < s'.sample_interval_second) ∧
    s'.records = [] ∧
    (s'.final_sample.isSome = true → s'.records_at_freeze = some []) := by
  cases a <;> simp only [step] at hstep
  case start =>
    split at hstep
    · cases hstep
    · injection hstep with h; rw [← h]; exact ⟨hrunning, hpc, h1, h2⟩
  case record_download n =>
    injection hstep with h; rw [← h]; exact ⟨hrunning, hpc, h1, h2⟩
  case record_upload n =>
    injection hstep with h; rw [← h]; exact ⟨hrunning, hpc, h1, h2⟩
  case record_service_invocation =>
    injection hstep with h; rw [← h]; exact ⟨hrunning, hpc, h1, h2⟩
  case signal_terminate =>
    injection hstep with h; rw [← h]; exact ⟨rfl, hpc, h1, h2⟩
  case loop_check_running =>
    split at hstep
    · injection hstep with h; rw [← h]
      refine ⟨hrunning, ?_, h1, h2⟩
      intro hat
      rw [hrunning] at hat
      simp at hat
    · cases hstep
  case loop_sample =>
    split at hstep
    · next hat =>
      split at hstep
      · next hc => exact absurd hc (not_le.mpr (hpc hat))
      · injection hstep with h; rw [← h]
        exact ⟨hrunning, fun hh => absurd hh (by simp), h1, h2⟩
    · cases hstep
  case loop_sleep =>
    split at hstep
    · injection hstep with h; rw [← h]
      exact ⟨hrunning, fun hh => absurd hh (by simp), h1, h2⟩
    · cases hstep
  case join_freeze =>
    split at hstep
    · injection hstep with h; rw [← h]
      exact ⟨hrunning, hpc, h1, fun _ => congrArg some h1⟩
    · cases hstep
  case join_return =>
    split at hstep
    · injection hstep with h; rw [← h]; exact ⟨hrunning, hpc, h1, h2⟩
    · cases hstep

/-- Run-closure of `step_keeps_empty_terminated`. -/
theorem run_keeps_empty_terminated (tr : List (Act × Int))
    (s s' : MonitorState)
    (hrunning : s.running = false)
    (hpc : s.pc = LoopPC.atCheck → s.elapsed < s.sample_interval_second)
    (h1 : s.records = [])
    (h2 : s.final_sample.isSome = true → s.records_at_freeze = some [])
    (hrun : run s tr = some s') :
    s'.records = [] ∧
    (s'.final_sample.isSome = true → s'.records_at_freeze = some []) := by
  induction tr generalizing s with
  | nil =>
    simp only [run] at hrun
    injection hrun with h; rw [← h]; exact ⟨h1, h2⟩
  | cons p tr ih =>
    obtain ⟨a, t⟩ := p
    simp only [run] at hrun
    cases hst : step a t s with
    | none => rw [hst] at hrun; cases hrun
    | some s1 =>
      rw [hst] at hrun
      obtain ⟨g0, gpc, g1, g2⟩ :=
        step_keeps_empty_terminated a t s s1 hrunning hpc h1 h2 hst
      exact ih s1 g0 gpc g1 g2 hrun

/-- C1.  Final-sample guarantee: in any run from a fresh monitor in which
`signal_terminate()` arrives while the loop has never yet satisfied
`elapsed >= sample_interval` (so the loop body never appends), once `wait()`
has taken its single extra snapshot (`final_sample` populated), the
records list is empty, the frozen `runtime_samples` value is the empty
list, and the final sample is populated. -/
theorem final_sample_guarantee (si : Int) (sg : Option Int) (c : Int)
    (tr1 tr2 : List (Act × Int)) (t : Int) (s1 s2 s3 : MonitorState)
    (hph1 : runWhen lowElapsed (mkMonitor si sg c) tr1 = some s1)
    (hterm : step Act.signal_terminate t s1 = some s2)
    (hph2 : run s2 tr2 = some s3)
    (hfin : s3.final_sample.isSome = true) :
    s3.records = [] ∧ s3.records_at_freeze = some [] ∧
    s3.final_sample.isSome = true := by
  obtain ⟨e1, e2, elow⟩ :=
    runWhen_low_keeps_empty tr1 (mkMonitor si sg c) s1 rfl
      (fun hh => by simp [mkMonitor] at hh) hph1
  simp only [step] at hterm
  injection hterm with h2
  obtain ⟨g1, g2⟩ :=
    run_keeps_empty_terminated tr2 s2 s3 (by rw [← h2])
      (fun _ => by rw [← h2]; exact elow) (by rw [← h2]; exact e1)
      (fun hh => by rw [← h2] at hh ⊢; exact e2 hh) hph2
  exact ⟨g1, g2 hfin, hfin⟩

/-- C1 witness: `sample_interval = 10`, started and terminated immediately,
then `wait()`. -/
theorem final_sample_guarantee_witness :
    runWhen lowElapsed (mkMonitor 10 none 0) c1_tr1 = some c1_s1 ∧
    step Act.signal_terminate 1 c1_s1 = some c1_s2 ∧
    run c1_s2 c1_tr2 = some c1_s3 ∧
    c1_s3.final_sample.isSome = true ∧
    (c1_s3.records = [] ∧ c1_s3.records_at_freeze = some [] ∧
      c1_s3.final_sample.isSome = true) :=
  ⟨by decide, by decide, by decide, by decide,
   final_sample_guarantee 10 none 0 c1_tr1 c1_tr2 1 c1_s1 c1_s2 c1_s3
     (by decide) (by decide) (by decide) (by decide)⟩

/-- Weakening the time bound of the elapsed-time invariant. -/
theorem elapsed_inv_weaken (t0 t : Int) (ht : t0 ≤ t) (s : MonitorState)
    (hb : ∀ r ∈ s.records, r.elapsedTime ≤ t0 - s.create_time)
    (hch : List.Chain' (fun x y => x.elapsedTime ≤ y.elapsedTime) s.records)
    (hf : ∀ f, s.final_sample = some f →
      f.elapsedTime ≤ t0 - s.create_time ∧
      ∃ l, s.records_at_freeze = some l ∧ l.length ≤ s.records.length ∧
        (∀ r ∈ l, r.elapsedTime ≤ f.elapsedTime) ∧
        (∀ r ∈ s.records.drop l.length, f.elapsedTime ≤ r.elapsedTime)) :
    (∀ r ∈ s.records, r.elapsedTime ≤ t - s.create_time) ∧
    List.Chain' (fun x y => x.elapsedTime ≤ y.elapsedTime) s.records ∧
    (∀ f, s.final_sample = some f →
      f.elapsedTime ≤ t - s.create_time ∧
      ∃ l, s.records_at_freeze = some l ∧ l.length ≤ s.records.length ∧
        (∀ r ∈ l, r.elapsedTime ≤ f.elapsedTime) ∧
        (∀ r ∈ s.records.drop l.length, f.elapsedTime ≤ r.elapsedTime)) := by
  refine ⟨fun r hr => le_trans (hb r hr) (by omega), hch, fun f hfeq => ?_⟩
  obtain ⟨hf1, l, hl, hlen, hle, hge⟩ := hf f hfeq
  exact ⟨le_trans hf1 (by omega), l, hl, hlen, hle, hge⟩

/-- One step preserves the elapsed-time invariant, moving the time bound to
the step's own wall-clock reading. -/
theorem step_mono_elapsed (a : Act) (t t0 : Int) (s s' : MonitorState)
    (ht : t0 ≤ t)
    (hb : ∀ r ∈ s.records, r.elapsedTime ≤ t0 - s.create_time)
    (hch : List.Chain' (fun x y => x.elapsedTime ≤ y.elapsedTime) s.records)
    (hf : ∀ f, s.final_sample = some f →
      f.elapsedTime ≤ t0 - s.create_time ∧
      ∃ l, s.records_at_freeze = some l ∧ l.length ≤ s.records.length ∧
        (∀ r ∈ l, r.elapsedTime ≤ f.elapsedTime) ∧
        (∀ r ∈ s.records.drop l.length, f.elapsedTime ≤ r.elapsedTime))
    (hstep : step a t s = some s') :
    (∀ r ∈ s'.records, r.elapsedTime ≤ t - s'.create_time) ∧
    List.Chain' (fun x y => x.elapsedTime ≤ y.elapsedTime) s'.records ∧
    (∀ f, s'.final_sample = some f →
      f.elapsedTime ≤ t - s'.create_time ∧
      ∃ l, s'.records_at_freeze = some l ∧ l.length ≤ s'.records.length ∧
        (∀ r ∈ l, r.elapsedTime ≤ f.elapsedTime) ∧
        (∀ r ∈ s'.records.drop l.length, f.elapsedTime ≤ r.elapsedTime)) := by
  cases a <;> simp only [step] at hstep
  case start =>
    split at hstep
    · cases hstep
    · injection hstep with h; rw [← h]
      exact elapsed_inv_weaken t0 t ht s hb hch hf
  case record_download n =>
    injection hstep with h; rw [← h]
    exact elapsed_inv_weaken t0 t ht s hb hch hf
  case record_upload n =>
    injection hstep with h; rw [← h]
    exact elapsed_inv_weaken t0 t ht s hb hch hf
  case record_service_invocation =>
    injection hstep with h; rw [← h]
    exact elapsed_inv_weaken t0 t ht s hb hch hf
  case signal_terminate =>
    injection hstep with h; rw [← h]
    exact elapsed_inv_weaken t0 t ht s hb hch hf
  case loop_check_running =>
    split at hstep
    · injection hstep with h; rw [← h]
      exact elapsed_inv_weaken t0 t ht s hb hch hf
    · cases hstep
  case loop_sample =>
    split at hstep
    · split at hstep
      · injection hstep with h; rw [← h]
        refine ⟨?_, ?_, ?_⟩
        · intro r hr
          rcases List.mem_append.mp hr with hmem | hmem
          · exact le_trans (hb r hmem)
              (show t0 - s.create_time ≤ t - s.create_time by omega)
          · rw [List.mem_singleton.mp hmem]
            simp [takeSnapshot]
        · rw [List.chain'_append]
          refine ⟨hch, List.chain'_singleton _, ?_⟩
          intro x hx y hy
          simp only [List.head?_cons, Option.mem_def, Option.some.injEq] at hy
          rw [← hy]
          have hxr : x ∈ s.records := List.mem_of_mem_getLast? hx
          calc x.elapsedTime ≤ t0 - s.create_time := hb x hxr
            _ ≤ (takeSnapshot t s).elapsedTime := by simp [takeSnapshot]; omega
        · intro f hfeq
          obtain ⟨hf1, l, hl, hlen, hle, hge⟩ := hf f hfeq
          refine ⟨le_trans hf1
              (show t0 - s.create_time ≤ t - s.create_time by omega),
            l, hl, ?_, hle, ?_⟩
          · simp only [List.length_append, List.length_cons, List.length_nil]
            omega
          · rw [List.drop_append_of_le_length hlen]
            intro r hr
            rcases List.mem_append.mp hr with hmem | hmem
            · exact hge r hmem
            · rw [List.mem_singleton.mp hmem]
              calc f.elapsedTime ≤ t0 - s.create_time := hf1
                _ ≤ (takeSnapshot t s).elapsedTime := by
                    simp [takeSnapshot]; omega
      · injection hstep with h; rw [← h]
        exact elapsed_inv_weaken t0 t ht s hb hch hf
    · cases hstep
  case loop_sleep =>
    split at hstep
    · injection hstep with h; rw [← h]
      exact elapsed_inv_weaken t0 t ht s hb hch hf
    · cases hstep
  case join_freeze =>
    split at hstep
    · injection hstep with h; rw [← h]
      refine ⟨fun r hr => le_trans (hb r hr)
                (show t0 - s.create_time ≤ t - s.create_time by omega),
              hch, fun f hfeq => ?_⟩
      have hfs : f = takeSnapshot t s := by
        have := hfeq
        simp only [Option.some.injEq] at this
        exact this.symm
      refine ⟨by rw [hfs]; simp [takeSnapshot], s.records, rfl, le_refl _,
              ?_, ?_⟩
      · intro r hr
        rw [hfs]
        calc r.elapsedTime ≤ t0 - s.create_time := hb r hr
          _ ≤ (takeSnapshot t s).elapsedTime := by simp [takeSnapshot]; omega
      · intro r hr
        rw [List.drop_length] at hr
        cases hr
    · cases hstep
  case join_return =>
    split at hstep
    · injection hstep with h; rw [← h]
      exact elapsed_inv_weaken t0 t ht s hb hch hf
    · cases hstep

/-- Run-closure of `step_mono_elapsed` under nondecreasing wall-clock
readings. -/
theorem run_mono_elapsed (tr : List (Act × Int)) (s s' : MonitorState)
    (t0 : Int) (hm : timesMono t0 tr = true)
    (hb : ∀ r ∈ s.records, r.elapsedTime ≤ t0 - s.create_time)
    (hch : List.Chain' (fun x y => x.elapsedTime ≤ y.elapsedTime) s.records)
    (hf : ∀ f, s.final_sample = some f →
      f.elapsedTime ≤ t0 - s.create_time ∧
      ∃ l, s.records_at_freeze = some l ∧ l.length ≤ s.records.length ∧
        (∀ r ∈ l, r.elapsedTime ≤ f.elapsedTime) ∧
        (∀ r ∈ s.records.drop l.length, f.elapsedTime ≤ r.elapsedTime))
    (hrun : run s tr = some s') :
    ∃ t1,
      (∀ r ∈ s'.records, r.elapsedTime ≤ t1 - s'.create_time) ∧
      List.Chain' (fun x y => x.elapsedTime ≤ y.elapsedTime) s'.records ∧
      (∀ f, s'.final_sample = some f →
        f.elapsedTime ≤ t1 - s'.create_time ∧
        ∃ l, s'.records_at_freeze = some l ∧ l.length ≤ s'.records.length ∧
          (∀ r ∈ l, r.elapsedTime ≤ f.elapsedTime) ∧
          (∀ r ∈ s'.records.drop l.length, f.elapsedTime ≤ r.elapsedTime)) := by
  induction tr generalizing s t0 with
  | nil =>
    simp only [run] at hrun
    injection hrun with h; rw [← h]
    exact ⟨t0, hb, hch, hf⟩
  | cons p tr ih =>
    obtain ⟨a, t⟩ := p
    simp only [timesMono, Bool.and_eq_true, decide_eq_true_eq] at hm
    obtain ⟨ht, hm'⟩ := hm
    simp only [run] at hrun
    cases hst : step a t s with
    | none => rw [hst] at hrun; cases hrun
    | some s1 =>
      rw [hst] at hrun
      obtain ⟨g1, g2, g3⟩ := step_mono_elapsed a t t0 s s1 ht hb hch hf hst
      exact ih s1 t hm' g1 g2 g3 hrun

/-- C7.  Monotonic elapsed time: in any run from a fresh monitor whose
wall-clock readings are nondecreasing (starting from the process creation
time), the records' `elapsed_time` values are nondecreasing in capture
order, every record frozen into the summary has `elapsed_time` at most the
final sample's, and any record appended after the freeze has `elapsed_time`
at least the final sample's. -/
theorem monotonic_elapsed_time (si : Int) (sg : Option Int) (c : Int)
    (tr : List (Act × Int)) (s : MonitorState)
    (hrun : run (mkMonitor si sg c) tr = some s)
    (hm : timesMono c tr = true) :
    List.Chain' (fun x y => x.elapsedTime ≤ y.elapsedTime) s.records ∧
    ∀ f, s.final_sample = some f →
      ∃ l, s.records_at_freeze = some l ∧
        (∀ r ∈ l, r.elapsedTime ≤ f.elapsedTime) ∧
        (∀ r ∈ s.records.drop l.length, f.elapsedTime ≤ r.elapsedTime) := by
  obtain ⟨t1, _, g2, g3⟩ :=
    run_mono_elapsed tr (mkMonitor si sg c) s c hm
      (fun r hr => by simp [mkMonitor] at hr)
      (by simp [mkMonitor])
      (fun f hfeq => by simp [mkMonitor] at hfeq) hrun
  refine ⟨g2, fun f hfeq => ?_⟩
  obtain ⟨_, l, hl, _, hle, hge⟩ := g3 f hfeq
  exact ⟨l, hl, hle, hge⟩

/-- C7 witness: a run capturing records at times 1 and 2 and the final
sample at time 3. -/
theorem monotonic_elapsed_time_witness :
    run (mkMonitor 1 (some 1) 0) c7_trace = some c7_final ∧
    timesMono 0 c7_trace = true ∧
    (List.Chain' (fun x y => x.elapsedTime ≤ y.elapsedTime)
        c7_final.records ∧
      ∀ f, c7_final.final_sample = some f →
        ∃ l, c7_final.records_at_freeze = some l ∧
          (∀ r ∈ l, r.elapsedTime ≤ f.elapsedTime) ∧
          (∀ r ∈ c7_final.records.drop l.length,
            f.elapsedTime ≤ r.elapsedTime)) :=
  ⟨by decide, by decide,
   monotonic_elapsed_time 1 (some 1) 0 c7_trace c7_final (by decide)
     (by decide)⟩

end ResourceMonitor
